import Mathlib

/-!
Verification of the `entsoe_client` query-decomposition and parsing layer
(`src/entsoe_client/utils.py`, `parsers.py`, `exceptions.py`).

Modelling conventions, used throughout:

* Timestamps live on an integer timeline (a count of time units such as
  minutes or microseconds; the unit is irrelevant).  Python `datetime`
  values carrying a fixed-offset timezone together with `timedelta`
  arithmetic form exactly such a linear timeline.  Calendar-relative
  steps (`dateutil.relativedelta` with months or years), whose length is
  not constant, are modelled separately by `Date`/`addMonths` below.
* `/` and `%` on `ℤ` are Euclidean division, which agrees with Python
  `divmod` (floor division) for the positive divisors used here.
* Python exceptions become the `PyExc` error type together with
  `Except PyExc` results.
* DataFrames are opaque row lists; `narwhals.concat` needs at least one
  frame (there is no backend to build an empty frame from), which the
  model `concatFrames` reflects by failing on the empty list.
-/

namespace EntsoeClient

/-- The exception kinds raised by the code under `src/entsoe_client`:
the seven classes of `exceptions.py`, plus `notImplementedError`
(raised by `parsers.resolution_to_timedelta`), `httpStatusError`
(the original `httpx` error re-raised by `raise_response_error`),
`valueError` (raised by `narwhals.concat` on an empty frame list) and
`indexError` (raised by Python list indexing out of range). -/
inductive PyExc where
  | paginationError
  | noMatchingDataError
  | invalidPSRTypeError
  | invalidBusinessParameterError
  | invalidParameterError
  | tzNaiveError
  | parseError
  | notImplementedError
  | httpStatusError
  | valueError
  | indexError
deriving DecidableEq, Repr

/-- A DataFrame, abstracted to its rows (the row contents never matter
for the claims below). -/
def Frame : Type := List ℤ

instance : DecidableEq Frame := by unfold Frame; infer_instance

/-- Models `narwhals.concat(frames, how="diagonal")`: concatenation of at
least one frame; with zero frames there is no backend to build a result
from and narwhals raises, which the model reports as `valueError`. -/
def concatFrames (fs : List Frame) : Except PyExc Frame :=
  match fs with
  | [] => .error .valueError
  | f :: rest => .ok (rest.foldl (fun a b => List.append a b) f)

/-! ### `utils.yield_date_range`

Embeds

```
_t0 = start
while _t0 < end:
    _t1 = min(_t0 + freq, end)
    yield _t0, _t1
    _t0 = _t1
```

with `freq` a fixed positive step `D` on the integer timeline.  The
conjunct `0 < D` in the guard is forced by totality: for `D <= 0` the
Python generator never advances and yields forever, so no finite list
embeds it; every theorem below assumes a positive split duration, on
which the guard is invisible. -/

def yield_date_range (D t0 tend : ℤ) : List (ℤ × ℤ) :=
  if _h : t0 < tend ∧ 0 < D then
    (t0, min (t0 + D) tend) :: yield_date_range D (min (t0 + D) tend) tend
  else []
termination_by (tend - t0).toNat
decreasing_by all_goals omega

/-! ### `utils.paginated`

`paginated` wraps an async call; on `PaginationError` it computes
`pivot = start + (end - start) / 2` and recurses on both halves.  The
Python division `timedelta / 2` rounds the microsecond count to the
nearest integer, ties to even (`datetime._divide_and_round`); the
timeline unit here is therefore the microsecond. -/

/-- `halfRoundEven a` is Python `timedelta(microseconds=a) / 2` on the
microsecond count: `q, r = divmod(a, 2)`, rounding up exactly when the
remainder is one half and `q` is odd (round-half-to-even). -/
def halfRoundEven (a : ℤ) : ℤ :=
  if a % 2 = 1 ∧ (a / 2) % 2 = 1 then a / 2 + 1 else a / 2

/-- The temporal midpoint `start + (end - start) / 2` of `paginated`. -/
def pagPivot (s e : ℤ) : ℤ := s + halfRoundEven (e - s)

/-- The two halves `(start, pivot)` and `(pivot, end)` that
`pagination_wrapper` retries after a `PaginationError`. -/
def pagBisect (s e : ℤ) : (ℤ × ℤ) × (ℤ × ℤ) :=
  ((s, pagPivot s e), (pagPivot s e, e))

/-- Fuel-indexed run of `pagination_wrapper`.  The wrapped call is
abstracted to an oracle: `oracle s e = true` means `func(start=s, end=e)`
returns (with a frame or `None`), `false` means it raises
`PaginationError`.  `none` models exhausting the fuel, i.e. the recursion
not having terminated within `fuel` nested bisections. -/
def pagRun (oracle : ℤ → ℤ → Bool) : ℕ → ℤ → ℤ → Option Unit
  | 0, _, _ => none
  | fuel + 1, s, e =>
    if oracle s e then some ()
    else
      match pagRun oracle fuel s (pagPivot s e), pagRun oracle fuel (pagPivot s e) e with
      | some _, some _ => some ()
      | _, _ => none

/-! ### `utils.split_query` and `utils.documents_limited`

Both wrappers call the wrapped function once per block (respectively per
offset), absorb `NoMatchingDataError`, append every non-`None` frame to
`frames`, and finish with `nw.concat(frames, how="diagonal")` — also when
`frames == []`, where the preceding `if frames == []` only logs. -/

/-- The outcome of one wrapped call: it raises `NoMatchingDataError`, or
returns a `nw.DataFrame | None`. -/
inductive FetchResult where
  | noData
  | frame (f : Option Frame)

/-- The `frames` list accumulated by the `split_query` wrapper loop
`for _start, _end in blocks: try ... except NoMatchingDataError: ...`. -/
def split_query_collect (oracle : ℤ → ℤ → FetchResult) : List (ℤ × ℤ) → List Frame
  | [] => []
  | b :: rest =>
    match oracle b.1 b.2 with
    | .noData => split_query_collect oracle rest
    | .frame none => split_query_collect oracle rest
    | .frame (some f) => f :: split_query_collect oracle rest

/-- One run of the `split_query(freq)` wrapper with split duration `D`:
split `[s, e)` into blocks, query each block, concatenate. -/
def split_query_run (D : ℤ) (oracle : ℤ → ℤ → FetchResult) (s e : ℤ) :
    Except PyExc Frame :=
  concatFrames (split_query_collect oracle (yield_date_range D s e))

/-- Python `range(0, stop, step)` for a positive `step`. -/
def pyRange (stop step : ℕ) : List ℕ :=
  (List.range ((stop + step - 1) / step)).map (fun k => k * step)

/-- The offsets `range(0, 4800 + n, n)` tried by `documents_limited(n)`. -/
def offsetsList (n : ℕ) : List ℕ := pyRange (4800 + n) n

/-- The `documents_limited` wrapper loop: walk the offsets in order,
stopping at (and including the call for) the first
`NoMatchingDataError`; returns the offsets actually issued and the
accumulated frames. -/
def docLoop (oracle : ℕ → FetchResult) : List ℕ → List ℕ × List Frame
  | [] => ([], [])
  | o :: rest =>
    match oracle o with
    | .noData => ([o], [])
    | .frame f =>
      let p := docLoop oracle rest
      (o :: p.1, f.toList ++ p.2)

/-- One run of the `documents_limited(n)` wrapper.  The caller-supplied
keyword `_offset` is accepted but never read by the wrapper body.
Returns the issued offsets alongside the `nw.concat` result. -/
def documents_wrapper (n : ℕ) (oracle : ℕ → FetchResult) (_offset : ℕ) :
    List ℕ × Except PyExc Frame :=
  let p := docLoop oracle (offsetsList n)
  (p.1, concatFrames p.2)

/-! ### `parsers.resolution_to_timedelta` and the decoder timestamp rule

`resolution_to_timedelta` maps the eight known resolution codes to a
`timedelta` (fixed length — modelled in minutes) or a `relativedelta`
(`P1M`, `P1Y` — calendar-relative).  `parse_timeseries_generic` then
computes each sample timestamp as `start + (position - 1) * delta`. -/

/-- A `timedelta | relativedelta` resolution step.  `minutes` is a fixed
length (`timedelta`); `months` and `years` are the calendar-relative
`relativedelta` steps. -/
inductive Delta where
  | minutes (m : ℤ)
  | months (k : ℤ)
  | years (k : ℤ)
deriving DecidableEq, Repr

/-- Embeds `parsers.resolution_to_timedelta`: the dictionary lookup over
the eight literal keys (`timedelta` values converted to minutes), raising
`NotImplementedError` when the key is absent. -/
def resolution_to_timedelta (res_text : String) : Except PyExc Delta :=
  if res_text = "PT60M" then .ok (.minutes 60)
  else if res_text = "P1Y" then .ok (.years 1)
  else if res_text = "PT15M" then .ok (.minutes 15)
  else if res_text = "PT30M" then .ok (.minutes 30)
  else if res_text = "P1D" then .ok (.minutes 1440)
  else if res_text = "P7D" then .ok (.minutes 10080)
  else if res_text = "P1M" then .ok (.months 1)
  else if res_text = "PT1M" then .ok (.minutes 1)
  else .error .notImplementedError

/-- A calendar date, as the date part of a Python `datetime` (the
time-of-day part is unchanged by `relativedelta` month arithmetic and is
omitted). -/
structure Date where
  year : ℤ
  month : ℤ
  day : ℤ
deriving DecidableEq, Repr

def isLeap (y : ℤ) : Bool := y % 4 == 0 && (y % 100 != 0 || y % 400 == 0)

def daysInMonth (y m : ℤ) : ℤ :=
  if m = 2 then (if isLeap y then 29 else 28)
  else if m = 4 ∨ m = 6 ∨ m = 9 ∨ m = 11 then 30
  else 31

/-- `dateutil` month arithmetic: `date + relativedelta(months=k)` moves
`year/month` by `divmod(month - 1 + k, 12)` and clamps the day to the
length of the target month.  Adding `relativedelta(years=j)` coincides
with adding `12 * j` months. -/
def addMonths (d : Date) (k : ℤ) : Date :=
  let tm := d.month - 1 + k
  let y := d.year + tm / 12
  let m := tm % 12 + 1
  ⟨y, m, min d.day (daysInMonth y m)⟩

/-- Sample timestamp `start + (position - 1) * delta` for a fixed-length
resolution, on the linear timeline (minutes). -/
def pointTimestamp (start resMinutes position : ℤ) : ℤ :=
  start + (position - 1) * resMinutes

/-- Sample timestamp `start + (position - 1) * delta` for the calendar
resolutions, with `k` months per step (`k = 1` for `P1M`, `k = 12` for
`P1Y`): multiplying a `relativedelta` by an integer scales its
components, so the decoder adds `(position - 1) * k` months in one step
(one single day clamp). -/
def pointTimestampCal (start : Date) (k position : ℤ) : Date :=
  addMonths start ((position - 1) * k)

/-- The per-period point loop of `parse_timeseries_generic` for a
fixed-length resolution: every point contributes the timestamp computed
from its own `<position>`, in document order, with no assumption that
positions are contiguous or sorted. -/
def decodePeriod (start resMinutes : ℤ) (positions : List ℤ) : List ℤ :=
  positions.map (pointTimestamp start resMinutes)

/-! ### `parsers.parse_freq`

The regex
`^((?P<years>[\.\d]+?)y)?((?P<months>[\.\d]+?)m)?((?P<days>[\.\d]+?)d)?((?P<hours>[\.\d]+?)h)?((?P<minutes>[\.\d]+?)m)?((?P<seconds>[\.\d]+?)s)?$`
is a sequence of optional fields, each a nonempty run of digits or dots
followed by its unit letter.  Because a unit letter is never a digit or a
dot, the run a field can consume at a given position is unique, and
because skipping a matchable field leaves its text to strictly later
groups only, consuming a matchable field can never turn an otherwise
successful overall match into a failure; greedy sequential matching
without backtracking therefore reproduces both the success set and the
leftmost-preference group assignment of the Python regex.  Two further
points of Python regex semantics are modelled: `\d` matches every
Unicode decimal digit (general category `Nd`), not only ASCII; and in a
non-MULTILINE pattern `$` matches at the end of the string or just
before a newline that ends the string, so the anchored match succeeds
exactly when the remainder after the six fields is empty or one single
trailing newline.  The matched field texts are kept verbatim (the
subsequent `float(...)` conversion never matters to the claims). -/

/-- A Python `datetime` value: an instant on the linear timeline
(minutes) plus its timezone identity — `none` for a naive value, or the
fixed UTC offset (minutes) of an aware one. -/
structure PyDatetime where
  minutes : ℤ
  tzOffset : Option ℤ
deriving DecidableEq, Repr

/-- Python `datetime.astimezone(target)`: an aware value converts via its
own offset; a NAIVE value is interpreted as system-local wall time
(offset `localOffset`) and converted — no exception is raised. -/
def astimezone (localOffset target : ℤ) (d : PyDatetime) : PyDatetime :=
  match d.tzOffset with
  | some off => ⟨d.minutes - off + target, some target⟩
  | none => ⟨d.minutes - localOffset + target, some target⟩

/-- The two accepted input forms of `parse_datetime`: a `datetime`
object, or a string — carried here as the naive-or-aware result of
`datetime.fromisoformat` (Python stdlib, external to this repository). -/
inductive DateInput where
  | dt (d : PyDatetime)
  | str (parsed : PyDatetime)

/-- Embeds `parsers.parse_datetime` (the final `strftime("%Y%m%d%H%M")`
formatting is dropped; the returned datetime value determines it).  Only
the `datetime` branch checks `date.tzinfo is None`; the string branch
goes straight to `fromisoformat(date).astimezone(target_tz)`. -/
def parse_datetime (localOffset target : ℤ) : DateInput → Except PyExc PyDatetime
  | .dt d =>
    if d.tzOffset = none then .error .tzNaiveError
    else .ok (astimezone localOffset target d)
  | .str p => .ok (astimezone localOffset target p)

/-! ### `exceptions.raise_response_error` -/

def startsWithL : List Char → List Char → Bool
  | [], _ => true
  | _ :: _, [] => false
  | p :: ps, c :: cs => p == c && startsWithL ps cs

def occursInL (pat : List Char) : List Char → Bool
  | [] => pat.isEmpty
  | c :: cs => startsWithL pat (c :: cs) || occursInL pat cs

/-- Python substring containment `pat in s`. -/
def pyIn (pat s : String) : Bool := occursInL pat.data s.data

/-- Length of Python `s.split(" ")`: one more than the number of single
space characters. -/
def spaceTokens (s : String) : ℕ := s.data.count ' ' + 1

def patNoMatch : String := "No matching data found"

def patBusiness : String := "check you request against dependency tables"

def patPSR : String := "is not valid for this area"

def patPagination1 : String := "amount of requested data exceeds allowed limit"

def patPagination2 : String :=
  "requested data to be gathered via the offset parameter exceeds the allowed limit"

/-- A completed HTTP exchange as `raise_response_error` consumes it:
status code, the `content-type` header (`headers.get("content-type", "")`),
the text contents of the `<text>` elements in document order
(`soup.find_all("text")`), and the raw body (`response.text`). -/
structure Response where
  status : ℕ
  contentType : String
  textElems : List String
  body : String

/-- Embeds `exceptions.raise_response_error`.  `raise_for_status` raises
for every non-2xx status (`httpx` success is `200 <= status < 300`); the
handler then pattern-matches the text of the FIRST `<text>` element
against the five substrings in order.  The two `PaginationError` branches
first extract the requested/allowed counts by fixed negative indices into
`error_text.split(" ")` — `[-2]`/`[-5]` in the first, `[-9]`/`[-30]` in
the second; a negative index `[-i]` demands at least `i` tokens, else
Python raises an uncaught `IndexError` before the `PaginationError` is
constructed. -/
def raise_response_error (r : Response) : Except PyExc Response :=
  if 200 ≤ r.status ∧ r.status < 300 then
    if r.contentType == "application/xml" && pyIn patNoMatch r.body then
      .error .noMatchingDataError
    else .ok r
  else
    match r.textElems with
    | [] => .error .httpStatusError
    | t :: _ =>
      if pyIn patNoMatch t then .error .noMatchingDataError
      else if pyIn patBusiness t then .error .invalidBusinessParameterError
      else if pyIn patPSR t then .error .invalidPSRTypeError
      else if pyIn patPagination1 t then
        (if 5 ≤ spaceTokens t then .error .paginationError else .error .indexError)
      else if pyIn patPagination2 t then
        (if 30 ≤ spaceTokens t then .error .paginationError else .error .indexError)
      else .error .httpStatusError

/-! ### `utils.inclusive` -/

/-- The four values of the `closed` literal of `utils.inclusive`. -/
inductive Closedness where
  | both
  | left
  | right
  | neither

/-- Embeds the boundary transform of the `inclusive(granularity, closed)`
wrapper: the `match closed` block computing `(_start, _end)` from
`(start, end)` and the granularity `g`.  The function is total over the
four literals — no branch errors. -/
def inclusive_bounds (closed : Closedness) (g s e : ℤ) : ℤ × ℤ :=
  match closed with
  | .both => (s, e)
  | .left => (s, e - g)
  | .right => (s + g, e)
  | .neither => (s + g, e - g)

theorem yield_date_range_stop (D t0 tend : ℤ) (h : tend ≤ t0) :
    yield_date_range D t0 tend = [] := by
  rw [yield_date_range]
  rw [dif_neg]
  omega

theorem yield_date_range_step (D t0 tend : ℤ) (h : t0 < tend) (hD : 0 < D) :
    yield_date_range D t0 tend =
      (t0, min (t0 + D) tend) :: yield_date_range D (min (t0 + D) tend) tend := by
  rw [yield_date_range]
  rw [dif_pos ⟨h, hD⟩]

theorem yield_date_range_head? (D t0 tend : ℤ) :
    (yield_date_range D t0 tend).head? =
      if t0 < tend ∧ 0 < D then some (t0, min (t0 + D) tend) else none := by
  rw [yield_date_range]
  split <;> simp_all

/-- Every produced block sits inside the requested interval, is nonempty,
and spans at most `D`. -/
theorem yield_date_range_mem (D t0 tend : ℤ) (b : ℤ × ℤ)
    (hb : b ∈ yield_date_range D t0 tend) :
    t0 ≤ b.1 ∧ b.1 < b.2 ∧ b.2 - b.1 ≤ D ∧ b.2 ≤ tend := by
  rw [yield_date_range] at hb
  split at hb
  · rename_i h
    rcases List.mem_cons.mp hb with hb' | hb'
    · subst hb'
      constructor
      · omega
      constructor
      · simp only
        omega
      constructor
      · simp only
        omega
      · simp only
        omega
    · have ih := yield_date_range_mem D (min (t0 + D) tend) tend b hb'
      omega
  · simp at hb
termination_by (tend - t0).toNat
decreasing_by all_goals omega

/-- Consecutiveness: the end of each block is the start of the next. -/
theorem yield_date_range_chain (D t0 tend : ℤ) :
    List.Chain' (fun a b => a.2 = b.1) (yield_date_range D t0 tend) := by
  rw [yield_date_range]
  split
  · rename_i h
    apply List.chain'_cons'.mpr
    refine ⟨?_, yield_date_range_chain D (min (t0 + D) tend) tend⟩
    intro y hy
    rw [yield_date_range_head?] at hy
    split at hy
    · cases hy
      rfl
    · cases hy
  · exact List.chain'_nil
termination_by (tend - t0).toNat
decreasing_by all_goals omega

/-- Blocks are pairwise ordered and non-overlapping. -/
theorem yield_date_range_pairwise (D t0 tend : ℤ) :
    List.Pairwise (fun a b => a.2 ≤ b.1) (yield_date_range D t0 tend) := by
  rw [yield_date_range]
  split
  · rename_i h
    apply List.pairwise_cons.mpr
    refine ⟨?_, yield_date_range_pairwise D (min (t0 + D) tend) tend⟩
    intro b hb
    have := yield_date_range_mem D (min (t0 + D) tend) tend b hb
    simp only
    omega
  · exact List.Pairwise.nil
termination_by (tend - t0).toNat
decreasing_by all_goals omega

/-- Exact coverage: a time point lies in some block exactly when it lies
in the half-open requested interval. -/
theorem yield_date_range_cover (D t0 tend : ℤ) (hD : 0 < D) (t : ℤ) :
    (∃ b ∈ yield_date_range D t0 tend, b.1 ≤ t ∧ t < b.2) ↔ t0 ≤ t ∧ t < tend := by
  rw [yield_date_range]
  split
  · rename_i h
    constructor
    · rintro ⟨b, hb, h1, h2⟩
      rcases List.mem_cons.mp hb with hb' | hb'
      · subst hb'
        simp only at h1 h2
        omega
      · have := (yield_date_range_cover D (min (t0 + D) tend) tend hD t).mp ⟨b, hb', h1, h2⟩
        omega
    · rintro ⟨h1, h2⟩
      by_cases hc : t < min (t0 + D) tend
      · exact ⟨(t0, min (t0 + D) tend), List.mem_cons_self _ _, h1, hc⟩
      · obtain ⟨b, hb, hh⟩ :=
          (yield_date_range_cover D (min (t0 + D) tend) tend hD t).mpr (by omega)
        exact ⟨b, List.mem_cons_of_mem _ hb, hh⟩
  · rename_i h
    simp only [List.not_mem_nil, false_and, exists_false, exists_and_left, false_iff]
    omega
termination_by (tend - t0).toNat
decreasing_by all_goals omega

theorem yield_date_range_ne_nil (D t0 tend : ℤ) (hD : 0 < D) (h : t0 < tend) :
    yield_date_range D t0 tend ≠ [] := by
  rw [yield_date_range_step D t0 tend h hD]
  exact List.cons_ne_nil _ _

/-- The last block ends exactly at the requested end. -/
theorem yield_date_range_last (D t0 tend : ℤ) (hD : 0 < D) (h : t0 < tend) :
    (yield_date_range D t0 tend).getLast?.map Prod.snd = some tend := by
  rw [yield_date_range_step D t0 tend h hD]
  by_cases hc : min (t0 + D) tend < tend
  · have hne := yield_date_range_ne_nil D (min (t0 + D) tend) tend hD hc
    rcases hrest : yield_date_range D (min (t0 + D) tend) tend with _ | ⟨a, l⟩
    · exact absurd hrest hne
    · rw [List.getLast?_cons_cons]
      rw [← hrest]
      exact yield_date_range_last D (min (t0 + D) tend) tend hD hc
  · have hmin : min (t0 + D) tend = tend := by omega
    have hrest : yield_date_range D (min (t0 + D) tend) tend = [] := by
      apply yield_date_range_stop
      omega
    rw [hrest, hmin]
    rfl
termination_by (tend - t0).toNat
decreasing_by all_goals omega

/-- Claim C1: for timestamps `start <= end` and a positive split duration
`D`, the blocks of `yield_date_range` are consecutive (each block ends
where the next starts), pairwise non-overlapping, each nonempty with span
at most `D` and contained in `[start, end)`, they cover `[start, end)`
exactly, the first block starts at `start`, and the final block ends
exactly at the caller end, never overshooting. -/
theorem c1_yield_date_range_splits_exactly (D s e : ℤ) (hD : 0 < D) (_hse : s ≤ e) :
    List.Chain' (fun a b => a.2 = b.1) (yield_date_range D s e)
    ∧ List.Pairwise (fun a b => a.2 ≤ b.1) (yield_date_range D s e)
    ∧ (∀ b ∈ yield_date_range D s e, s ≤ b.1 ∧ b.1 < b.2 ∧ b.2 - b.1 ≤ D ∧ b.2 ≤ e)
    ∧ (∀ t : ℤ, (∃ b ∈ yield_date_range D s e, b.1 ≤ t ∧ t < b.2) ↔ s ≤ t ∧ t < e)
    ∧ (s < e →
        (yield_date_range D s e).head?.map Prod.fst = some s
        ∧ (yield_date_range D s e).getLast?.map Prod.snd = some e) := by
  refine ⟨yield_date_range_chain D s e, yield_date_range_pairwise D s e,
    fun b hb => yield_date_range_mem D s e b hb,
    fun t => yield_date_range_cover D s e hD t, fun hlt => ⟨?_, ?_⟩⟩
  · rw [yield_date_range_head?]
    rw [if_pos ⟨hlt, hD⟩]
    rfl
  · exact yield_date_range_last D s e hD hlt

/-- Witness for C1 at the concrete input `start = 0`, `end = 5`, `D = 2`
(blocks `[(0, 2), (2, 4), (4, 5)]`). -/
theorem c1_yield_date_range_splits_exactly_witness :
    List.Chain' (fun a b => a.2 = b.1) (yield_date_range 2 0 5)
    ∧ List.Pairwise (fun a b => a.2 ≤ b.1) (yield_date_range 2 0 5)
    ∧ (∀ b ∈ yield_date_range 2 0 5, 0 ≤ b.1 ∧ b.1 < b.2 ∧ b.2 - b.1 ≤ 2 ∧ b.2 ≤ 5)
    ∧ (∀ t : ℤ, (∃ b ∈ yield_date_range 2 0 5, b.1 ≤ t ∧ t < b.2) ↔ 0 ≤ t ∧ t < 5)
    ∧ ((0 : ℤ) < 5 →
        (yield_date_range 2 0 5).head?.map Prod.fst = some 0
        ∧ (yield_date_range 2 0 5).getLast?.map Prod.snd = some 5) :=
  c1_yield_date_range_splits_exactly 2 0 5 (by norm_num) (by norm_num)

/-- With a callee that always raises `PaginationError`, the wrapper never
terminates on the interval `[0, 1)`: no amount of fuel completes the
recursion, because the right half of the bisection is the whole interval
again. -/
theorem pagRun_always_reject (fuel : ℕ) :
    pagRun (fun _ _ => false) fuel 0 1 = none := by
  induction fuel with
  | zero => rfl
  | succ n ih =>
    have hp : pagPivot 0 1 = 0 := by decide
    simp only [pagRun, Bool.false_eq_true, if_false, hp, ih]
    cases pagRun (fun _ _ => false) n 0 0 <;> rfl

/-- Claim C3 counterexample: bisecting the minimal nondegenerate interval
`[0, 1)` (one microsecond) at its temporal midpoint gives pivot `0`, so
the right half is `[0, 1)` itself — the bisection does not strictly
shrink the interval, and (see `pagRun_always_reject`) a callee that keeps
raising `PaginationError` on it makes the recursion run forever, refuting
the unconditional termination stated by the claim. -/
theorem c3_counterexample : pagBisect 0 1 = ((0, 0), (0, 1)) := by decide

theorem pagPivot_bounds (s e : ℤ) (h : 2 ≤ e - s) :
    s + 1 ≤ pagPivot s e ∧ pagPivot s e ≤ e - 1 := by
  unfold pagPivot halfRoundEven
  split <;> omega

/-- Claim C3 (amended): on `PaginationError` the wrapper splits the
interval at its temporal midpoint `start + (end - start) / 2` and retries
each half; each bisection of an interval at least two microseconds wide
strictly shrinks both halves, so the recursion terminates — with fuel
exceeding the interval width — provided the callee accepts every interval
of width at most one microsecond (for those minimal intervals bisection
reproduces the interval itself, so acceptance there is required). -/
theorem c3_paginated_bisection_terminates (oracle : ℤ → ℤ → Bool)
    (hsmall : ∀ s e : ℤ, e - s ≤ 1 → oracle s e = true) :
    ∀ (fuel : ℕ) (s e : ℤ), s ≤ e → (e - s).toNat < fuel →
      pagRun oracle fuel s e = some () := by
  intro fuel
  induction fuel with
  | zero =>
    intro s e _ h
    omega
  | succ n ih =>
    intro s e hse hlt
    by_cases hacc : oracle s e = true
    · simp [pagRun, hacc]
    · have hwide : 2 ≤ e - s := by
        by_contra hw
        exact hacc (hsmall s e (by omega))
      have hb := pagPivot_bounds s e hwide
      have h1 : pagRun oracle n s (pagPivot s e) = some () :=
        ih s (pagPivot s e) (by omega) (by omega)
      have h2 : pagRun oracle n (pagPivot s e) e = some () :=
        ih (pagPivot s e) e (by omega) (by omega)
      simp [pagRun, hacc, h1, h2]

/-- Witness for the amended C3: a callee accepting exactly the intervals
of width at most one, on `[0, 10)` with fuel `11`. -/
theorem c3_paginated_bisection_terminates_witness :
    pagRun (fun s e => decide (e - s ≤ 1)) 11 0 10 = some () :=
  c3_paginated_bisection_terminates (fun s e => decide (e - s ≤ 1))
    (fun _ _ h => decide_eq_true h) 11 0 10 (by norm_num) (by decide)

theorem yield_date_range_eval_example :
    yield_date_range 10 0 20 = [(0, 10), (10, 20)] := by
  rw [yield_date_range_step 10 0 20 (by norm_num) (by norm_num),
    (by norm_num [min_def] : min ((0 : ℤ) + 10) 20 = 10),
    yield_date_range_step 10 10 20 (by norm_num) (by norm_num),
    (by norm_num [min_def] : min ((10 : ℤ) + 10) 20 = 20),
    yield_date_range_stop 10 20 20 (le_refl 20)]

/-- Claim C4, evaluated at the failing inputs: whenever no sub-call
contributes a frame the wrappers do not return an empty or absent
result — they reach `nw.concat(frames)` with `frames == []`, which
raises.  Shown for a degenerate interval (`start = end`, zero blocks),
for a call where every block raises `NoMatchingDataError`, and for a
`documents_limited` call whose first page raises `NoMatchingDataError`. -/
theorem c4_all_void_concat_raises :
    split_query_run 10 (fun _ _ => .frame (some [1])) 5 5 = .error .valueError
    ∧ split_query_run 10 (fun _ _ => .noData) 0 20 = .error .valueError
    ∧ (documents_wrapper 100 (fun _ => .noData) 0).2 = .error .valueError := by
  refine ⟨?_, ?_, ?_⟩
  · unfold split_query_run
    rw [yield_date_range_stop 10 5 5 (le_refl 5)]
    rfl
  · unfold split_query_run
    rw [yield_date_range_eval_example]
    rfl
  · rfl

theorem lt_pyRange_count_iff (x n k : ℕ) (hn : 0 < n) :
    k < (x + n - 1) / n ↔ k * n < x := by
  rw [Nat.lt_iff_add_one_le, Nat.le_div_iff_mul_le hn, add_mul, one_mul]
  generalize k * n = a
  omega

theorem mem_offsetsList_iff (n m : ℕ) (hn : 0 < n) :
    m ∈ offsetsList n ↔ n ∣ m ∧ m < 4800 + n := by
  unfold offsetsList pyRange
  simp only [List.mem_map, List.mem_range]
  constructor
  · rintro ⟨k, hk, rfl⟩
    rw [lt_pyRange_count_iff _ _ _ hn] at hk
    exact ⟨dvd_mul_left n k, hk⟩
  · rintro ⟨⟨k, rfl⟩, hm⟩
    exact ⟨k, (lt_pyRange_count_iff _ _ _ hn).mpr (by rw [mul_comm]; exact hm),
      mul_comm k n⟩

theorem offsetsList_last (n : ℕ) (hn : 0 < n) :
    ∃ L ∈ offsetsList n, 4800 ≤ L ∧ L < 4800 + n ∧ ∀ m ∈ offsetsList n, m ≤ L := by
  have hc1 : 1 ≤ (4800 + n + n - 1) / n := by
    have := (lt_pyRange_count_iff (4800 + n) n 0 hn).mpr (by omega)
    omega
  have hcu : 4800 + n ≤ ((4800 + n + n - 1) / n) * n := by
    by_contra hco
    have := (lt_pyRange_count_iff (4800 + n) n ((4800 + n + n - 1) / n) hn).mpr (by omega)
    exact absurd this (lt_irrefl _)
  have hstep : ((4800 + n + n - 1) / n - 1) * n + n = ((4800 + n + n - 1) / n) * n := by
    have h1 := Nat.sub_mul ((4800 + n + n - 1) / n) 1 n
    have h2 : 1 * n ≤ ((4800 + n + n - 1) / n) * n := mul_le_mul_right' hc1 n
    omega
  refine ⟨((4800 + n + n - 1) / n - 1) * n, ?_, by omega, ?_, ?_⟩
  · rw [mem_offsetsList_iff _ _ hn]
    refine ⟨dvd_mul_left n _, ?_⟩
    have hlt := (lt_pyRange_count_iff (4800 + n) n ((4800 + n + n - 1) / n - 1) hn).mp (by omega)
    exact hlt
  · have hlt := (lt_pyRange_count_iff (4800 + n) n ((4800 + n + n - 1) / n - 1) hn).mp (by omega)
    exact hlt
  · intro m hm
    rw [mem_offsetsList_iff _ _ hn] at hm
    obtain ⟨⟨k, rfl⟩, hlt⟩ := hm
    have hk : k ≤ (4800 + n + n - 1) / n - 1 := by
      have := (lt_pyRange_count_iff (4800 + n) n k hn).mpr (by rw [mul_comm]; exact hlt)
      omega
    calc n * k = k * n := mul_comm n k
    _ ≤ ((4800 + n + n - 1) / n - 1) * n := mul_le_mul_right' hk n

theorem docLoop_issued_of_list (oracle : ℕ → FetchResult) (l : List ℕ) :
    ∃ rest, l = (docLoop oracle l).1 ++ rest := by
  induction l with
  | nil => exact ⟨[], rfl⟩
  | cons o t ih =>
    rw [docLoop]
    rcases h : oracle o with _ | f
    · exact ⟨t, rfl⟩
    · obtain ⟨rest, hrest⟩ := ih
      exact ⟨rest, by simp only [List.cons_append]; rw [← hrest]⟩

theorem docLoop_issued_all (oracle : ℕ → FetchResult) (l : List ℕ)
    (h : ∀ o ∈ l, oracle o ≠ .noData) : (docLoop oracle l).1 = l := by
  induction l with
  | nil => rfl
  | cons o t ih =>
    rw [docLoop]
    rcases ho : oracle o with _ | f
    · exact absurd ho (h o (List.mem_cons_self o t))
    · simp only [List.cons.injEq, true_and]
      exact ih (fun x hx => h x (List.mem_cons_of_mem o hx))

/-- Claim C10 (amended): for every positive page size `n` the wrapper
ignores the caller-supplied `_offset` entirely; the candidate offsets are
exactly the multiples of `n` below `4800 + n` — in particular the last
one is the first multiple of `n` at or beyond the hard bound `4800`, so
it equals `4800` exactly when `n` divides `4800` and otherwise exceeds it
by less than `n`; the issued offsets walk that list from `0` in order,
stopping early exactly at the first page raising `NoMatchingDataError`. -/
theorem c10_documents_limited_offsets (n : ℕ) (hn : 0 < n)
    (oracle : ℕ → FetchResult) (off1 off2 : ℕ) :
    documents_wrapper n oracle off1 = documents_wrapper n oracle off2
    ∧ (∀ m, m ∈ offsetsList n ↔ n ∣ m ∧ m < 4800 + n)
    ∧ (∃ L ∈ offsetsList n, 4800 ≤ L ∧ L < 4800 + n ∧ ∀ m ∈ offsetsList n, m ≤ L)
    ∧ (∃ rest, offsetsList n = (documents_wrapper n oracle off1).1 ++ rest)
    ∧ ((∀ o ∈ offsetsList n, oracle o ≠ .noData) →
        (documents_wrapper n oracle off1).1 = offsetsList n) :=
  ⟨rfl, fun m => mem_offsetsList_iff n m hn, offsetsList_last n hn,
    docLoop_issued_of_list oracle (offsetsList n),
    fun h => docLoop_issued_all oracle (offsetsList n) h⟩

/-- Witness for the amended C10 at `n = 100` with an oracle that always
returns a frame and two distinct `_offset` values. -/
theorem c10_documents_limited_offsets_witness :
    documents_wrapper 100 (fun _ => .frame (some [0])) 0
      = documents_wrapper 100 (fun _ => .frame (some [0])) 3
    ∧ (∀ m, m ∈ offsetsList 100 ↔ 100 ∣ m ∧ m < 4800 + 100)
    ∧ (∃ L ∈ offsetsList 100, 4800 ≤ L ∧ L < 4800 + 100 ∧ ∀ m ∈ offsetsList 100, m ≤ L)
    ∧ (∃ rest, offsetsList 100
        = (documents_wrapper 100 (fun _ => .frame (some [0])) 0).1 ++ rest)
    ∧ ((∀ o ∈ offsetsList 100, (fun _ => FetchResult.frame (some [0])) o ≠ .noData) →
        (documents_wrapper 100 (fun _ => .frame (some [0])) 0).1 = offsetsList 100) :=
  c10_documents_limited_offsets 100 (by norm_num) (fun _ => .frame (some [0])) 0 3

/-- Claim C10 counterexample: with page size `n = 4801` the wrapper
issues exactly the offsets `0` and `4801`; it issues an offset beyond the
claimed hard bound `4800` and never issues `4800` itself. -/
theorem c10_counterexample :
    (documents_wrapper 4801 (fun _ => .frame (some [0])) 0).1 = [0, 4801]
    ∧ 4800 ∉ offsetsList 4801 := by
  refine ⟨rfl, ?_⟩
  decide

/-- Claim C2 (amended): the decoder records, for the point with integer
position `p`, exactly `period.start + (p - 1) * resolution`, whatever the
order or contiguity of the positions in the document; consequently, for
the six fixed-length resolutions, the computed timestamps of two points
at positions `p1` and `p2` are exactly `(p2 - p1) * R` apart.  (For the
calendar resolutions `P1M`/`P1Y` the exact difference law can fail by
day-of-month clamping; see the counterexample.) -/
theorem c2_decoder_point_timestamps (start R : ℤ) (positions : List ℤ) :
    (∀ i : ℕ, (decodePeriod start R positions)[i]?
        = (positions[i]?).map (fun p => start + (p - 1) * R))
    ∧ ∀ p1 p2 : ℤ,
        pointTimestamp start R p2 - pointTimestamp start R p1 = (p2 - p1) * R := by
  constructor
  · intro i
    simp only [decodePeriod, List.getElem?_map]
    rfl
  · intro p1 p2
    unfold pointTimestamp
    ring

/-- Claim C2 counterexample: the code maps `P1M` to
`relativedelta(months=1)`; in a period starting 2021-01-31 the decoder
computes 2021-02-28 for position 2 and 2021-03-31 for position 3, yet
2021-02-28 plus `(3 - 2) * relativedelta(months=1)` is 2021-03-28 — the
two computed timestamps are NOT exactly one resolution step apart, so the
exact difference law fails for calendar resolutions. -/
theorem c2_counterexample :
    resolution_to_timedelta "P1M" = .ok (.months 1)
    ∧ pointTimestampCal ⟨2021, 1, 31⟩ 1 2 = ⟨2021, 2, 28⟩
    ∧ pointTimestampCal ⟨2021, 1, 31⟩ 1 3 = ⟨2021, 3, 31⟩
    ∧ addMonths (pointTimestampCal ⟨2021, 1, 31⟩ 1 2) 1
        ≠ pointTimestampCal ⟨2021, 1, 31⟩ 1 3 := by
  refine ⟨rfl, rfl, rfl, ?_⟩
  decide

/-- Claim C6 (amended): every resolution code outside the eight
enumerated ones makes `resolution_to_timedelta` raise — but it raises
`NotImplementedError` (as its own docstring says), not `ParseError`; it
never silently defaults. -/
theorem c6_unknown_resolution_raises (s : String)
    (h : s ∉ ["PT1M", "PT15M", "PT30M", "PT60M", "P1D", "P7D", "P1M", "P1Y"]) :
    resolution_to_timedelta s = .error .notImplementedError := by
  simp only [List.mem_cons, List.not_mem_nil, or_false] at h
  push_neg at h
  obtain ⟨h1, h2, h3, h4, h5, h6, h7, h8⟩ := h
  simp [resolution_to_timedelta, h1, h2, h3, h4, h5, h6, h7, h8]

/-- Witness for the amended C6 at the unknown code `PT45M`. -/
theorem c6_unknown_resolution_raises_witness :
    resolution_to_timedelta "PT45M" = .error .notImplementedError :=
  c6_unknown_resolution_raises "PT45M" (by decide)

/-- Claim C6 counterexample: at the unknown code `PT5M` the function
raises `NotImplementedError`, which is not the `ParseError` the claim
names. -/
theorem c6_counterexample :
    resolution_to_timedelta "PT5M" = .error .notImplementedError
    ∧ PyExc.notImplementedError ≠ PyExc.parseError := by
  refine ⟨rfl, ?_⟩
  decide

/-- Claim C8 (amended): `parse_datetime` raises `TzNaiveError` for every
timezone-naive `datetime` OBJECT, before any request is issued — but the
rejection does not extend to the string input form: a string parses and
converts unconditionally, a naive one being interpreted in the
system-local timezone. -/
theorem c8_tz_naive_rejected_for_datetime_only (loc target : ℤ) (d : PyDatetime)
    (h : d.tzOffset = none) (p : PyDatetime) :
    parse_datetime loc target (.dt d) = .error .tzNaiveError
    ∧ parse_datetime loc target (.str p) = .ok (astimezone loc target p) := by
  refine ⟨?_, rfl⟩
  simp [parse_datetime, h]

/-- Witness for the amended C8: a naive datetime object is rejected; an
aware string input converts. -/
theorem c8_tz_naive_rejected_for_datetime_only_witness :
    parse_datetime 0 0 (.dt ⟨5, none⟩) = .error .tzNaiveError
    ∧ parse_datetime 0 0 (.str ⟨7, some 60⟩) = .ok (astimezone 0 0 ⟨7, some 60⟩) :=
  c8_tz_naive_rejected_for_datetime_only 0 0 ⟨5, none⟩ rfl ⟨7, some 60⟩

/-- Claim C8 counterexample: a timezone-naive STRING input is not
rejected — `parse_datetime` returns normally, and the result depends on
the system-local timezone offset (here `60` versus `120` minutes),
refuting the claim that the `TzNaiveError` rejection applies to every
accepted input form. -/
theorem c8_counterexample :
    parse_datetime 60 0 (.str ⟨0, none⟩) = .ok ⟨-60, some 0⟩
    ∧ parse_datetime 120 0 (.str ⟨0, none⟩) = .ok ⟨-120, some 0⟩ :=
  ⟨rfl, rfl⟩

/-- Claim C5 (amended): `raise_response_error` follows the
classification table exactly, with one proviso on the fifth pattern (and
its analogue on the fourth): a 2xx response with content type exactly
`application/xml` and the no-match marker in the body raises
`NoMatchingDataError`, and any other 2xx response is returned unchanged;
a non-2xx response is classified by the first `<text>` element against
the five substrings in order, except that the two `PaginationError`
branches additionally require the text to carry enough space-separated
tokens for the fixed-position count extraction (at least 5, respectively
at least 30) — and a non-2xx response with no `<text>` element or no
matching pattern re-raises the original HTTP status error unmodified. -/
theorem c5_response_classification (r : Response) (t : String) (rest : List String) :
    (200 ≤ r.status ∧ r.status < 300 →
      ((r.contentType == "application/xml" && pyIn patNoMatch r.body) = true →
        raise_response_error r = .error .noMatchingDataError)
      ∧ ((r.contentType == "application/xml" && pyIn patNoMatch r.body) = false →
        raise_response_error r = .ok r))
    ∧ (¬(200 ≤ r.status ∧ r.status < 300) → r.textElems = t :: rest →
      (pyIn patNoMatch t = true →
        raise_response_error r = .error .noMatchingDataError)
      ∧ (pyIn patNoMatch t = false → pyIn patBusiness t = true →
        raise_response_error r = .error .invalidBusinessParameterError)
      ∧ (pyIn patNoMatch t = false → pyIn patBusiness t = false →
          pyIn patPSR t = true →
        raise_response_error r = .error .invalidPSRTypeError)
      ∧ (pyIn patNoMatch t = false → pyIn patBusiness t = false →
          pyIn patPSR t = false → pyIn patPagination1 t = true →
          5 ≤ spaceTokens t →
        raise_response_error r = .error .paginationError)
      ∧ (pyIn patNoMatch t = false → pyIn patBusiness t = false →
          pyIn patPSR t = false → pyIn patPagination1 t = false →
          pyIn patPagination2 t = true → 30 ≤ spaceTokens t →
        raise_response_error r = .error .paginationError)
      ∧ (pyIn patNoMatch t = false → pyIn patBusiness t = false →
          pyIn patPSR t = false → pyIn patPagination1 t = false →
          pyIn patPagination2 t = false →
        raise_response_error r = .error .httpStatusError))
    ∧ (¬(200 ≤ r.status ∧ r.status < 300) → r.textElems = [] →
      raise_response_error r = .error .httpStatusError) := by
  refine ⟨fun h2 => ⟨fun hc => ?_, fun hc => ?_⟩, fun hn ht => ?_, fun hn ht => ?_⟩
  · simp [raise_response_error, h2, hc]
  · simp [raise_response_error, h2, hc]
  · refine ⟨fun g1 => ?_, fun g1 g2 => ?_, fun g1 g2 g3 => ?_,
      fun g1 g2 g3 g4 g4t => ?_, fun g1 g2 g3 g4 g5 g5t => ?_,
      fun g1 g2 g3 g4 g5 => ?_⟩ <;>
    simp [raise_response_error, hn, ht, *]
  · simp [raise_response_error, hn, ht]

/-- Witness for the amended C5: a 2xx XML response carrying the no-match
marker raises `NoMatchingDataError`. -/
theorem c5_response_classification_witness :
    raise_response_error
      ⟨200, "application/xml", [], "Reply: No matching data found for query"⟩
      = .error .noMatchingDataError :=
  ((c5_response_classification
      ⟨200, "application/xml", [], "Reply: No matching data found for query"⟩
      "" []).1 (by norm_num)).1 (by decide)

/-- Claim C5 counterexample: a non-2xx response whose first `<text>`
element IS the fifth fixed substring (13 space-separated tokens) matches
the fifth pattern, yet the count extraction `error_text.split(" ")[-30]`
is out of range, so the code raises `IndexError` instead of the
`PaginationError` the claim promises, and instead of re-raising the
transport error. -/
theorem c5_counterexample :
    raise_response_error ⟨400, "", [patPagination2], ""⟩ = .error .indexError
    ∧ PyExc.indexError ≠ PyExc.paginationError := by
  refine ⟨?_, by decide⟩
  rfl

/-- Claim C9: the `inclusive` boundary transform: `both` leaves the
interval untouched, `left` only shifts the end backward by the
granularity, `right` only shifts the start forward by it, `neither`
applies both shifts — total for every granularity and interval, so it
never errors. -/
theorem c9_inclusive_boundary_transform (g s e : ℤ) :
    inclusive_bounds .both g s e = (s, e)
    ∧ inclusive_bounds .left g s e = (s, e - g)
    ∧ inclusive_bounds .right g s e = (s + g, e)
    ∧ inclusive_bounds .neither g s e = (s + g, e - g) :=
  ⟨rfl, rfl, rfl, rfl⟩

end EntsoeClient
